import Mathlib

/-!
Verification development for the BLE beacon scanner (`src/scanner/scan.py`).

The decoding logic of `scan_ble_devices` (lines 196-296), the message
building and sink fan-out of `process_beacon_data` (lines 107-148), the
configuration functions `load_config` / `reload_config` (lines 29-61,
322-335) and the stop flag handling of the scan loop (lines 179-320) are
embedded as executable Lean definitions; theorems below settle the spec
claims against them.
-/

namespace BLEBeacon

/-! Byte and string helpers.

`byteHex` and `bytesHex` model Python's `bytes.hex()` (two lowercase hex
digits per byte).  `uuidStrOfBytes` models `str(uuid.UUID(bytes=b))` for a
16-byte value `b`: 32 lowercase hex digits grouped 8-4-4-4-12 with dashes,
bytes in the order given (big-endian, not reordered).  `asciiDecode` models
`bytes(...).decode('ascii')`, failing on any byte above 127. -/

def byteHex (b : Nat) : String :=
  String.mk [Nat.digitChar (b / 16), Nat.digitChar (b % 16)]

def bytesHex (bs : List Nat) : String :=
  String.join (bs.map byteHex)

def uuidStrOfBytes (bs : List Nat) : String :=
  bytesHex (bs.take 4) ++ "-" ++ bytesHex ((bs.drop 4).take 2) ++ "-" ++
    bytesHex ((bs.drop 6).take 2) ++ "-" ++ bytesHex ((bs.drop 8).take 2) ++ "-" ++
    bytesHex (bs.drop 10)

def asciiDecode (bs : List Nat) : Option String :=
  if bs.all (fun b => b < 128) then some (String.mk (bs.map Char.ofNat)) else none

def strBytes (s : String) : List Nat := s.data.map Char.toNat

/-- Signed reading of one byte, modelling
`data[22] - 256 if data[22] > 127 else data[22]` (scan.py line 214). -/
def signedByte (b : Nat) : Int :=
  if 127 < b then (b : Int) - 256 else (b : Int)

/-- Python exceptions raised inside a decode branch and caught by that
branch's `except` handler: `IndexError` from the URL-scheme table lookup
(line 258) and `UnicodeDecodeError` from `decode('ascii')` (line 259). -/
inductive DecodeError where
  | indexError
  | unicodeDecodeError
  deriving DecidableEq

/-- The four beacon families built by the decode branches.  Fields hold
exactly what the Python dicts hold: the iBeacon `uuid` as the formatted
UUID string, Eddystone-UID namespace/inst and the AltBeacon id as hex
strings, the URL as a string. -/
inductive BeaconRecord where
  | iBeacon (uuid : String) (major minor : Nat) (tx_power : Int)
  | eddystoneUid (nspace inst : String)
  | eddystoneUrl (url : String)
  | altBeacon (beacon_id : String)
  deriving DecidableEq

/-- Outcome of running the decode branches on one manufacturer-data entry:
a beacon record handed to `process_beacon`, a caught exception, or nothing
(`noMatch`, the entry is silently skipped). -/
inductive DecodeResult where
  | ok (r : BeaconRecord)
  | err (e : DecodeError)
  | noMatch
  deriving DecidableEq

/-- The ordered URL-scheme table of scan.py line 258. -/
def urlSchemes : List String := ["http://www.", "https://www.", "http://", "https://"]

/-- Embedding of the per-entry decode dispatch of `scan_ble_devices`
(scan.py lines 204-296).  The branch structure is the source's
`if`/`elif` chain: iBeacon gate `company_code == 0x004C and len(data) >= 23`
with marker check `data[0] == 0x02 and data[1] == 0x15`; Eddystone gate
`company_code == 0x00AA and len(data) >= 20` with marker `0xAA 0xFE` and
frame type `0x00` (UID) or `0x10` (URL); AltBeacon fallback
`elif len(data) >= 24`.  A gate that matches but whose marker or frame
check fails produces nothing (the `elif` chain is not re-entered). -/
def decodeEntry (company_code : Nat) (data : List Nat) : DecodeResult :=
  if company_code = 0x004C ∧ 23 ≤ data.length then
    if data.getD 0 0 = 0x02 ∧ data.getD 1 0 = 0x15 then
      DecodeResult.ok (BeaconRecord.iBeacon
        (uuidStrOfBytes ((data.drop 2).take 16))
        (256 * data.getD 18 0 + data.getD 19 0)
        (256 * data.getD 20 0 + data.getD 21 0)
        (signedByte (data.getD 22 0)))
    else DecodeResult.noMatch
  else if company_code = 0x00AA ∧ 20 ≤ data.length then
    if data.getD 0 0 = 0xAA ∧ data.getD 1 0 = 0xFE then
      if data.getD 2 0 = 0x00 then
        DecodeResult.ok (BeaconRecord.eddystoneUid
          (bytesHex ((data.drop 3).take 10))
          (bytesHex ((data.drop 13).take 6)))
      else if data.getD 2 0 = 0x10 then
        match urlSchemes.get? (data.getD 3 0) with
        | none => DecodeResult.err DecodeError.indexError
        | some scheme =>
          match asciiDecode (data.drop 4) with
          | none => DecodeResult.err DecodeError.unicodeDecodeError
          | some body => DecodeResult.ok (BeaconRecord.eddystoneUrl (scheme ++ body))
      else DecodeResult.noMatch
    else DecodeResult.noMatch
  else if 24 ≤ data.length then
    DecodeResult.ok (BeaconRecord.altBeacon (bytesHex ((data.drop 2).take 20)))
  else DecodeResult.noMatch

/-- A 23-byte iBeacon payload built from known uuid / major / minor /
tx-power byte: marker `0x02 0x15`, 16 uuid bytes, big-endian major and
minor, one tx-power byte. -/
def buildIBeaconPayload (u : List Nat) (major minor txb : Nat) : List Nat :=
  0x02 :: 0x15 :: (u ++ [major / 256, major % 256, minor / 256, minor % 256, txb])

/-! Python dictionaries.

The `beacon_data` and `message` values of scan.py are string-keyed dicts;
they are modelled as association lists without duplicate keys.  `dlookup`
is key lookup, `dget` is `dict.get(key, default)`, and `dictUpdate m u` is
`m.update(u)`: keys already in `m` keep their position and take the value
from `u`, keys only in `u` are appended in `u`'s order. -/

inductive Val where
  | vStr (s : String)
  | vInt (n : Int)
  deriving DecidableEq

abbrev Dict := List (String × Val)

def dlookup (d : Dict) (k : String) : Option Val :=
  (d.find? (fun p => p.1 == k)).map (fun p => p.2)

def dget (d : Dict) (k : String) (dflt : Val) : Val :=
  (dlookup d k).getD dflt

def dictUpdate (m u : Dict) : Dict :=
  (m.map (fun p =>
    match dlookup u p.1 with
    | some v => (p.1, v)
    | none => p))
  ++ u.filter (fun p => (dlookup m p.1).isNone)

/-- One discovered device (scan.py lines 196-201): address, optional name,
RSSI, and its manufacturer data as a list of (company code, payload)
entries in dict-iteration order. -/
structure Device where
  address : String
  name : Option String
  rssi : Int
  manufacturer_data : List (Nat × List Nat)

/-- The `beacon_data` dict literal each decode branch builds from the
device and the extracted fields (scan.py lines 216-224, 245-251, 262-267,
283-288).  Every branch includes `rssi`, `address` and
`name` (`device.name or 'Unknown'`). -/
def beacon_data_of (dev : Device) : BeaconRecord → Dict
  | BeaconRecord.iBeacon u mj mn tx =>
      [("uuid", Val.vStr u), ("major", Val.vInt mj), ("minor", Val.vInt mn),
       ("tx_power", Val.vInt tx), ("rssi", Val.vInt dev.rssi),
       ("address", Val.vStr dev.address), ("name", Val.vStr (dev.name.getD "Unknown"))]
  | BeaconRecord.eddystoneUid nsp inst =>
      [("namespace", Val.vStr nsp), ("instance", Val.vStr inst),
       ("rssi", Val.vInt dev.rssi), ("address", Val.vStr dev.address),
       ("name", Val.vStr (dev.name.getD "Unknown"))]
  | BeaconRecord.eddystoneUrl url =>
      [("url", Val.vStr url), ("rssi", Val.vInt dev.rssi),
       ("address", Val.vStr dev.address), ("name", Val.vStr (dev.name.getD "Unknown"))]
  | BeaconRecord.altBeacon bid =>
      [("beacon_id", Val.vStr bid), ("rssi", Val.vInt dev.rssi),
       ("address", Val.vStr dev.address), ("name", Val.vStr (dev.name.getD "Unknown"))]

/-- The beacon-type tag each branch passes to `process_beacon`. -/
def familyName : BeaconRecord → String
  | BeaconRecord.iBeacon .. => "iBeacon"
  | BeaconRecord.eddystoneUid .. => "Eddystone-UID"
  | BeaconRecord.eddystoneUrl .. => "Eddystone-URL"
  | BeaconRecord.altBeacon .. => "AltBeacon"

/-- The `message` dict of `process_beacon_data` before `message.update`
(scan.py lines 112-118): common fields, with `rssi` and `address` taken
from `beacon_data.get(..., default)`. -/
def messageBase (beacon_type host_id timestamp : String) (beacon_data : Dict) : Dict :=
  [("type", Val.vStr beacon_type), ("host_id", Val.vStr host_id),
   ("timestamp", Val.vStr timestamp),
   ("rssi", dget beacon_data "rssi" (Val.vInt 0)),
   ("address", dget beacon_data "address" (Val.vStr "unknown"))]

/-- The outbound message after `message.update(beacon_data)`
(scan.py line 121). -/
def buildMessage (beacon_type host_id timestamp : String) (beacon_data : Dict) : Dict :=
  dictUpdate (messageBase beacon_type host_id timestamp beacon_data) beacon_data

/-! Sink fan-out.

The GUI callback and the Kafka `send`/`flush` pair are modelled as
functions that either succeed or fail with an error string (a raised
exception).  `process_beacon_data` (scan.py lines 107-148) attempts the
GUI callback inside its own try/except (lines 126-132), then the Kafka
publish inside its own try/except (lines 139-144), the latter only when a
producer exists, and returns the message unconditionally. -/

abbrev GuiCallback := String → Dict → Except String Unit

abbrev ProducerSend := Dict → Except String Unit

structure DeliveryResult where
  guiCalled : Bool
  guiError : Option String
  kafkaSent : Bool
  kafkaError : Option String
  message : Dict
  deriving DecidableEq

def process_beacon_data (gui : Option GuiCallback) (producer : Option ProducerSend)
    (beacon_type : String) (beacon_data : Dict) (host_id timestamp : String) :
    DeliveryResult :=
  { guiCalled := gui.isSome
    guiError :=
      match gui with
      | some cb =>
        match cb beacon_type beacon_data with
        | Except.ok _ => none
        | Except.error e => some e
      | none => none
    kafkaSent :=
      match producer with
      | some send =>
        match send (buildMessage beacon_type host_id timestamp beacon_data) with
        | Except.ok _ => true
        | Except.error _ => false
      | none => false
    kafkaError :=
      match producer with
      | some send =>
        match send (buildMessage beacon_type host_id timestamp beacon_data) with
        | Except.ok _ => none
        | Except.error e => some e
      | none => none
    message := buildMessage beacon_type host_id timestamp beacon_data }

/-! The scan loop (scan.py lines 179-313).

Each manufacturer-data entry of each device of a discovery batch runs the
decode dispatch; a decoded record is normalized and fanned out through
`process_beacon_data`, a caught decode exception is logged and the entry
skipped, a non-matching entry produces nothing.  The host id and the
per-event timestamp are parameters (supplied by `get_host_id` and the
ambient clock). -/

inductive EntryOutcome where
  | delivered (d : DeliveryResult)
  | decodeFailed (e : DecodeError)
  | skipped
  deriving DecidableEq

def processEntry (gui : Option GuiCallback) (producer : Option ProducerSend)
    (host_id timestamp : String) (dev : Device) (entry : Nat × List Nat) : EntryOutcome :=
  match decodeEntry entry.1 entry.2 with
  | DecodeResult.ok r =>
      EntryOutcome.delivered
        (process_beacon_data gui producer (familyName r) (beacon_data_of dev r) host_id timestamp)
  | DecodeResult.err e => EntryOutcome.decodeFailed e
  | DecodeResult.noMatch => EntryOutcome.skipped

def processEntries (gui : Option GuiCallback) (producer : Option ProducerSend)
    (host_id timestamp : String) (dev : Device) (entries : List (Nat × List Nat)) :
    List EntryOutcome :=
  entries.map (processEntry gui producer host_id timestamp dev)

def processDevice (gui : Option GuiCallback) (producer : Option ProducerSend)
    (host_id timestamp : String) (dev : Device) : List EntryOutcome :=
  processEntries gui producer host_id timestamp dev dev.manufacturer_data

def processBatch (gui : Option GuiCallback) (producer : Option ProducerSend)
    (host_id timestamp : String) (devices : List Device) : List EntryOutcome :=
  (devices.map (processDevice gui producer host_id timestamp)).flatten

inductive ScanState where
  | running
  | stopped
  deriving DecidableEq

/-- One trip around the `while _scanning_active` loop: whether the flag
was observed cleared at the top-of-loop check (scan.py line 181), whether
it was cleared during the `BleakScanner.discover` await and so observed
cleared at the post-discovery check (lines 190-192), and the discovered
batch. -/
structure Cycle where
  stopBeforeDiscovery : Bool
  stopDuringDiscovery : Bool
  batch : List Device

/-- The scan loop over a finite schedule of cycles: at each cycle the two
stop checks run in source order; a cleared flag exits the loop (state
`stopped`) producing no outcome from that cycle's batch; otherwise the
batch is processed and the loop continues.  An exhausted schedule leaves
the loop still `running`. -/
def scanRun (gui : Option GuiCallback) (producer : Option ProducerSend)
    (host_id timestamp : String) : List Cycle → List EntryOutcome × ScanState
  | [] => ([], ScanState.running)
  | c :: rest =>
    if c.stopBeforeDiscovery then ([], ScanState.stopped)
    else if c.stopDuringDiscovery then ([], ScanState.stopped)
    else
      let outs := processBatch gui producer host_id timestamp c.batch
      let more := scanRun gui producer host_id timestamp rest
      (outs ++ more.1, more.2)

/-- The outbound messages among a list of entry outcomes. -/
def messagesOf : List EntryOutcome → List Dict
  | [] => []
  | EntryOutcome.delivered d :: rest => d.message :: messagesOf rest
  | EntryOutcome.decodeFailed _ :: rest => messagesOf rest
  | EntryOutcome.skipped :: rest => messagesOf rest

/-- The GUI-delivery log (called?, error) among a list of entry outcomes. -/
def guiLogOf : List EntryOutcome → List (Bool × Option String)
  | [] => []
  | EntryOutcome.delivered d :: rest => (d.guiCalled, d.guiError) :: guiLogOf rest
  | EntryOutcome.decodeFailed _ :: rest => guiLogOf rest
  | EntryOutcome.skipped :: rest => guiLogOf rest

/-! Configuration (scan.py lines 29-68, 322-335). -/

structure KafkaConf where
  broker : String
  topic : String
  deriving DecidableEq

/-- The hard-coded defaults of `load_config` (scan.py lines 34-37). -/
def defaultKafkaConf : KafkaConf := { broker := "localhost:9092", topic := "ble_beacons" }

/-- Embedding of `load_config`: the parser starts from the defaults; a
successful file read yields the file's values; `fileRead = none` covers
both an absent file and a read that raises (the exception is caught at
lines 50-51 and the defaults are returned, modelling a parse failure
raised before any section is applied).  The function has no failure
channel: it always returns a config. -/
def load_config (fileRead : Option KafkaConf) : KafkaConf :=
  match fileRead with
  | some c => c
  | none => defaultKafkaConf

/-- The `KAFKA_BROKER` / `KAFKA_TOPIC` environment overrides
(scan.py lines 67-68, 330-331). -/
structure EnvOverrides where
  kafkaBroker : Option String
  kafkaTopic : Option String

/-- Embedding of `reload_config` (scan.py lines 322-335): it calls
`load_config` and overwrites the global broker/topic with the result
merged with environment overrides.  The previously effective snapshot is
passed as `_prev` to record that the source never consults it. -/
def reload_config (env : EnvOverrides) (fileRead : Option KafkaConf)
    (_prev : KafkaConf) : KafkaConf :=
  let c := load_config fileRead
  { broker := env.kafkaBroker.getD c.broker, topic := env.kafkaTopic.getD c.topic }

/-! Interleaving of publishes with a cross-thread `reload_config`.

The loop's Kafka producer is created once at loop start with the then
current `KAFKA_BROKER` (line 75); each publish reads the global
`KAFKA_TOPIC` at `producer.send(KAFKA_TOPIC, message)` time (line 140).
`reload_config` may run on the controller/GUI thread at any point, so a
run of the loop is an interleaving of publish actions with global-config
swaps. -/

inductive LoopAction where
  | publishEvent (m : Dict)
  | reloadAction (c : KafkaConf)

/-- Runs an interleaved action list: a publish is recorded with the broker
the producer was created with and the topic of the current global config;
a reload swaps the global config in place for all later actions. -/
def runInterleaved (producerBroker : String) (g : KafkaConf) :
    List LoopAction → List (String × String × Dict)
  | [] => []
  | LoopAction.publishEvent m :: rest =>
      (producerBroker, g.topic, m) :: runInterleaved producerBroker g rest
  | LoopAction.reloadAction c :: rest => runInterleaved producerBroker c rest

/-! Sample inputs used by witnesses and counterexamples. -/

def ibeaconSampleU : List Nat := [0, 1, 2, 3, 4, 5, 6, 7, 8, 9, 10, 11, 12, 13, 14, 15]

def eddyUrlShortPayload : List Nat := 0xAA :: 0xFE :: 0x10 :: 0x01 :: strBytes "example.com"

def eddyUrlSamplePayload : List Nat := 0xAA :: 0xFE :: 0x10 :: 0x01 :: strBytes "example.com/abcd"

def sampleDevice : Device :=
  { address := "AA:BB:CC:DD:EE:FF", name := some "demo", rssi := -40,
    manufacturer_data := [(0x004C, buildIBeaconPayload ibeaconSampleU 1 2 0xC8)] }

/-- A device carrying a decodable iBeacon entry followed by an
Eddystone-URL entry whose scheme index 4 raises `IndexError`. -/
def sampleDevice2 : Device :=
  { address := "11:22:33:44:55:66", name := none, rssi := -55,
    manufacturer_data := [(0x004C, buildIBeaconPayload ibeaconSampleU 1 2 0xC8),
      (0x00AA, 0xAA :: 0xFE :: 0x10 :: 0x04 :: List.replicate 16 0x61)] }

/-! Theorems. -/

/-- Helper: the iBeacon branch when the gate and the marker check hold. -/
theorem decodeEntry_ibeacon_gate (data : List Nat) (hlen : 23 ≤ data.length)
    (h0 : data.getD 0 0 = 0x02) (h1 : data.getD 1 0 = 0x15) :
    decodeEntry 0x004C data =
      DecodeResult.ok (BeaconRecord.iBeacon
        (uuidStrOfBytes ((data.drop 2).take 16))
        (256 * data.getD 18 0 + data.getD 19 0)
        (256 * data.getD 20 0 + data.getD 21 0)
        (signedByte (data.getD 22 0))) := by
  unfold decodeEntry
  rw [if_pos ⟨rfl, hlen⟩, if_pos ⟨h0, h1⟩]

/-- C1: every payload of length at least 23 under company id 0x004C whose
first two bytes are 0x02 0x15 decodes to an iBeacon record whose uuid is
the string rendering of payload bytes 2..17 in order (unreordered), whose
major and minor are the big-endian 16-bit values at bytes 18..19 and
20..21, and whose tx_power is byte 22 read as a signed two's-complement
byte; a payload built from known uuid / major / minor / tx-power byte
decodes back to exactly those values, with byte 0xFF read as -1 and byte
0x7F as 127, and the signed reading inverting the two's-complement
encoding of any tx_power in [-128, 127]. -/
theorem ibeacon_decode :
    (∀ data : List Nat, 23 ≤ data.length → data.getD 0 0 = 0x02 → data.getD 1 0 = 0x15 →
      decodeEntry 0x004C data =
        DecodeResult.ok (BeaconRecord.iBeacon
          (uuidStrOfBytes ((data.drop 2).take 16))
          (256 * data.getD 18 0 + data.getD 19 0)
          (256 * data.getD 20 0 + data.getD 21 0)
          (signedByte (data.getD 22 0))))
    ∧ (∀ (u : List Nat) (major minor txb : Nat),
        u.length = 16 → major < 65536 → minor < 65536 → txb < 256 →
        decodeEntry 0x004C (buildIBeaconPayload u major minor txb) =
          DecodeResult.ok (BeaconRecord.iBeacon (uuidStrOfBytes u) major minor (signedByte txb)))
    ∧ signedByte 0xFF = -1 ∧ signedByte 0x7F = 127
    ∧ (∀ t : Int, -128 ≤ t → t ≤ 127 → signedByte ((t % 256).toNat) = t) := by
  refine ⟨decodeEntry_ibeacon_gate, ?_, by decide, by decide, ?_⟩
  · intro u major minor txb hu hM hm ht
    have e1 : buildIBeaconPayload u major minor txb
        = ([0x02, 0x15] ++ u) ++ [major / 256, major % 256, minor / 256, minor % 256, txb] := by
      simp [buildIBeaconPayload]
    have hlen2 : ([0x02, 0x15] ++ u).length = 18 := by simp [hu]
    have hdrop : ((buildIBeaconPayload u major minor txb).drop 2).take 16 = u := by
      show ((u ++ [major / 256, major % 256, minor / 256, minor % 256, txb]).take 16) = u
      rw [← hu, List.take_left]
    have h18 : (buildIBeaconPayload u major minor txb).getD 18 0 = major / 256 := by
      rw [e1, List.getD_append_right _ _ _ _ (by simp [hu]), hlen2]; rfl
    have h19 : (buildIBeaconPayload u major minor txb).getD 19 0 = major % 256 := by
      rw [e1, List.getD_append_right _ _ _ _ (by simp [hu]), hlen2]; rfl
    have h20 : (buildIBeaconPayload u major minor txb).getD 20 0 = minor / 256 := by
      rw [e1, List.getD_append_right _ _ _ _ (by simp [hu]), hlen2]; rfl
    have h21 : (buildIBeaconPayload u major minor txb).getD 21 0 = minor % 256 := by
      rw [e1, List.getD_append_right _ _ _ _ (by simp [hu]), hlen2]; rfl
    have h22 : (buildIBeaconPayload u major minor txb).getD 22 0 = txb := by
      rw [e1, List.getD_append_right _ _ _ _ (by simp [hu]), hlen2]; rfl
    have hmain := decodeEntry_ibeacon_gate (buildIBeaconPayload u major minor txb)
      (by simp [buildIBeaconPayload, hu]) rfl rfl
    rw [hmain, hdrop, h18, h19, h20, h21, h22, Nat.div_add_mod, Nat.div_add_mod]
  · intro t h1 h2
    unfold signedByte
    split <;> omega

/-- C1 witness: the round trip at a concrete uuid, major 4660, minor 22136
and tx-power byte 0xFF. -/
theorem ibeacon_decode_witness :
    decodeEntry 0x004C (buildIBeaconPayload ibeaconSampleU 4660 22136 0xFF) =
      DecodeResult.ok
        (BeaconRecord.iBeacon (uuidStrOfBytes ibeaconSampleU) 4660 22136 (signedByte 0xFF)) :=
  ibeacon_decode.2.1 ibeaconSampleU 4660 22136 0xFF rfl (by decide) (by decide) (by decide)

/-- C2 counterexample: a 24-byte payload under company id 0x004C whose
marker bytes are not 0x02 0x15 satisfies the claim's hypothesis (no family
gate matched, length at least 24) yet decodes to nothing: the `elif` chain
never reaches the AltBeacon fallback once the iBeacon company/length test
has matched. -/
theorem altbeacon_fallback_counterexample :
    decodeEntry 0x004C (List.replicate 24 0) = DecodeResult.noMatch
    ∧ decodeEntry 0x004C (List.replicate 24 0) ≠
        DecodeResult.ok (BeaconRecord.altBeacon (bytesHex (List.replicate 20 0))) := by
  constructor
  · rfl
  · decide

/-- C2 (amended): an entry of length at least 24 reaches the AltBeacon
fallback exactly when the iBeacon company/length test (company 0x004C and
length at least 23) and the Eddystone company/length test (company 0x00AA
and length at least 20) both fail, and then yields beacon_id = hex of
payload bytes 2..21; an entry whose company/length test matches but whose
marker bytes do not decodes to nothing, never to the fallback; and a
23-byte payload under a company id matching neither test decodes to
nothing. -/
theorem altbeacon_fallback :
    (∀ (company_code : Nat) (data : List Nat),
      ¬(company_code = 0x004C ∧ 23 ≤ data.length) →
      ¬(company_code = 0x00AA ∧ 20 ≤ data.length) →
      24 ≤ data.length →
      decodeEntry company_code data =
        DecodeResult.ok (BeaconRecord.altBeacon (bytesHex ((data.drop 2).take 20))))
    ∧ (∀ data : List Nat, 23 ≤ data.length →
      ¬(data.getD 0 0 = 0x02 ∧ data.getD 1 0 = 0x15) →
      decodeEntry 0x004C data = DecodeResult.noMatch)
    ∧ (∀ data : List Nat, 20 ≤ data.length →
      ¬(data.getD 0 0 = 0xAA ∧ data.getD 1 0 = 0xFE) →
      decodeEntry 0x00AA data = DecodeResult.noMatch)
    ∧ (∀ (company_code : Nat) (data : List Nat),
      data.length = 23 → company_code ≠ 0x004C → company_code ≠ 0x00AA →
      decodeEntry company_code data = DecodeResult.noMatch) := by
  refine ⟨?_, ?_, ?_, ?_⟩
  · intro cc data h1 h2 h3
    unfold decodeEntry
    rw [if_neg h1, if_neg h2, if_pos h3]
  · intro data hlen hmark
    unfold decodeEntry
    rw [if_pos ⟨rfl, hlen⟩, if_neg hmark]
  · intro data hlen hmark
    unfold decodeEntry
    rw [if_neg (by rintro ⟨h, -⟩; exact absurd h (by decide)), if_pos ⟨rfl, hlen⟩, if_neg hmark]
  · intro cc data hlen hc1 hc2
    unfold decodeEntry
    rw [if_neg (by rintro ⟨h, -⟩; exact hc1 h), if_neg (by rintro ⟨h, -⟩; exact hc2 h),
      if_neg (by omega)]

/-- C2 witness: a 24-byte payload under an unrelated company id decodes to
the AltBeacon fallback. -/
theorem altbeacon_fallback_witness :
    decodeEntry 0x1234 (List.replicate 24 5) =
      DecodeResult.ok
        (BeaconRecord.altBeacon (bytesHex (((List.replicate 24 5 : List Nat).drop 2).take 20))) :=
  altbeacon_fallback.1 0x1234 (List.replicate 24 5) (by decide) (by decide) (by decide)

/-- C5 counterexample: the payload with scheme index 1 and body
"example.com" is 15 bytes long, fails the `len(data) >= 20` Eddystone gate
and decodes to nothing, not to "https://www.example.com". -/
theorem eddystone_url_counterexample :
    eddyUrlShortPayload.length = 15
    ∧ decodeEntry 0x00AA eddyUrlShortPayload = DecodeResult.noMatch
    ∧ decodeEntry 0x00AA eddyUrlShortPayload ≠
        DecodeResult.ok (BeaconRecord.eddystoneUrl "https://www.example.com") := by
  refine ⟨rfl, rfl, by decide⟩

/-- C5 (amended): an Eddystone-URL entry (company 0x00AA, length at least
20, bytes 0xAA 0xFE 0x10) decodes to the scheme looked up at payload[3] in
the ordered four-entry table concatenated with the ASCII decoding of
payload[4:], and any scheme index at least 4 fails with the IndexError
decode failure; the concrete example needs a body of at least 16 bytes to
pass the length gate: scheme index 1 with body "example.com/abcd" (a
20-byte payload) yields "https://www.example.com/abcd". -/
theorem eddystone_url_decode :
    (∀ data : List Nat, 20 ≤ data.length →
      data.getD 0 0 = 0xAA → data.getD 1 0 = 0xFE → data.getD 2 0 = 0x10 →
      (∀ scheme, urlSchemes.get? (data.getD 3 0) = some scheme →
        ∀ body, asciiDecode (data.drop 4) = some body →
          decodeEntry 0x00AA data = DecodeResult.ok (BeaconRecord.eddystoneUrl (scheme ++ body)))
      ∧ (4 ≤ data.getD 3 0 →
          decodeEntry 0x00AA data = DecodeResult.err DecodeError.indexError))
    ∧ decodeEntry 0x00AA eddyUrlSamplePayload =
        DecodeResult.ok (BeaconRecord.eddystoneUrl "https://www.example.com/abcd")
    ∧ eddyUrlSamplePayload.length = 20 := by
  refine ⟨?_, rfl, rfl⟩
  intro data hlen h0 h1 h2
  constructor
  · intro scheme hs body hb
    unfold decodeEntry
    rw [if_neg (by rintro ⟨h, -⟩; exact absurd h (by decide)), if_pos ⟨rfl, hlen⟩,
      if_pos ⟨h0, h1⟩, h2, if_neg (by decide), if_pos rfl, hs, hb]
  · intro h4
    have hs : urlSchemes.get? (data.getD 3 0) = none := by
      rw [List.get?_eq_none]
      simpa [urlSchemes] using h4
    unfold decodeEntry
    rw [if_neg (by rintro ⟨h, -⟩; exact absurd h (by decide)), if_pos ⟨rfl, hlen⟩,
      if_pos ⟨h0, h1⟩, h2, if_neg (by decide), if_pos rfl, hs]

/-- C5 witness: the gate theorem applied at the concrete 20-byte payload
with scheme index 1 and body "example.com/abcd". -/
theorem eddystone_url_decode_witness :
    decodeEntry 0x00AA eddyUrlSamplePayload =
      DecodeResult.ok (BeaconRecord.eddystoneUrl ("https://www." ++ "example.com/abcd")) :=
  (eddystone_url_decode.1 eddyUrlSamplePayload (by decide) rfl rfl rfl).1
    "https://www." rfl "example.com/abcd" rfl

/-- C3 counterexample: one in-flight loop iteration publishes two events
with a cross-thread `reload_config` interleaved between them; the second
event, already part of the batch being processed, is published to the new
topic, not to the snapshot in effect at iteration start. -/
theorem reload_midcycle_counterexample :
    runInterleaved "localhost:9092" { broker := "localhost:9092", topic := "topic_old" }
      [LoopAction.publishEvent [],
       LoopAction.reloadAction { broker := "localhost:9092", topic := "topic_new" },
       LoopAction.publishEvent []] =
      [("localhost:9092", "topic_old", ([] : Dict)), ("localhost:9092", "topic_new", ([] : Dict))]
    ∧ ("topic_new" : String) ≠ "topic_old" :=
  ⟨rfl, by decide⟩

/-- C3 (amended): the broker is captured once, at producer creation at
loop start, and every publish of a run uses it; the topic, by contrast, is
read from the global configuration at each publish, so an event processed
after a reload, even within the same iteration, goes to the new topic. -/
theorem reload_topic_per_publish :
    (∀ (b : String) (g : KafkaConf) (acts : List LoopAction),
      (runInterleaved b g acts).map (fun p => p.1) =
        List.replicate (runInterleaved b g acts).length b)
    ∧ (∀ (b : String) (g c : KafkaConf) (m₀ m₁ : Dict),
      runInterleaved b g
        [LoopAction.publishEvent m₀, LoopAction.reloadAction c, LoopAction.publishEvent m₁] =
        [(b, g.topic, m₀), (b, c.topic, m₁)]) := by
  constructor
  · intro b g acts
    induction acts generalizing g with
    | nil => rfl
    | cons a rest ih =>
      cases a with
      | publishEvent m => simp [runInterleaved, ih, List.replicate_succ]
      | reloadAction c => simpa [runInterleaved] using ih c
  · intro b g c m₀ m₁
    rfl

/-- C4 counterexample: with no environment overrides and a failing file
read, a reload performed while the effective snapshot is
`kafka.prod:9092 / prod_events` replaces it with the built-in defaults
instead of leaving it in effect, and returns the defaults as if the reload
had succeeded. -/
theorem reload_failure_counterexample :
    reload_config { kafkaBroker := none, kafkaTopic := none } none
        { broker := "kafka.prod:9092", topic := "prod_events" } = defaultKafkaConf
    ∧ defaultKafkaConf ≠ { broker := "kafka.prod:9092", topic := "prod_events" } :=
  ⟨rfl, by decide⟩

/-- C4 (amended): when the configuration read fails, `reload_config`
replaces the effective snapshot with the built-in defaults merged with
environment overrides, without consulting the previously effective
snapshot, and returns that result without reporting the failure. -/
theorem reload_failure_defaults :
    (∀ (env : EnvOverrides) (prev : KafkaConf),
      reload_config env none prev =
        { broker := env.kafkaBroker.getD "localhost:9092",
          topic := env.kafkaTopic.getD "ble_beacons" })
    ∧ (∀ (env : EnvOverrides) (fileRead : Option KafkaConf) (p₁ p₂ : KafkaConf),
      reload_config env fileRead p₁ = reload_config env fileRead p₂) :=
  ⟨fun _ _ => rfl, fun _ _ _ _ => rfl⟩

/-- C6: when the stop flag is observed still set at the top of a cycle but
cleared during discovery, the post-discovery check discards the batch: the
loop produces no outcome at all from that cycle (zero outbound events) and
exits to the stopped state. -/
theorem stop_midcycle :
    ∀ (gui : Option GuiCallback) (producer : Option ProducerSend) (host_id timestamp : String)
      (c : Cycle) (rest : List Cycle),
      c.stopBeforeDiscovery = false →
      c.stopDuringDiscovery = true →
      scanRun gui producer host_id timestamp (c :: rest) = ([], ScanState.stopped) := by
  intro gui producer hid ts c rest h1 h2
  simp [scanRun, h1, h2]

/-- C6 witness: a cycle whose batch contains a decodable iBeacon still
yields no outcome when stop arrives during discovery. -/
theorem stop_midcycle_witness :
    scanRun none none "host-1" "2026-10-12T00:00:00"
      [{ stopBeforeDiscovery := false, stopDuringDiscovery := true, batch := [sampleDevice] }] =
      ([], ScanState.stopped) :=
  stop_midcycle none none "host-1" "2026-10-12T00:00:00" _ [] rfl rfl

/-- C7: the Kafka delivery outcome and the returned message do not depend
on the GUI callback or its failure, the GUI delivery outcome does not
depend on the producer or its failure, and with an always-failing GUI
callback and a working producer every event is still published and the
message still returned (and symmetrically the GUI callback is always
invoked). -/
theorem sink_failure_isolation :
    (∀ (gui₁ gui₂ : Option GuiCallback) (producer : Option ProducerSend)
       (bt : String) (bd : Dict) (hid ts : String),
      (process_beacon_data gui₁ producer bt bd hid ts).kafkaSent =
        (process_beacon_data gui₂ producer bt bd hid ts).kafkaSent
      ∧ (process_beacon_data gui₁ producer bt bd hid ts).kafkaError =
        (process_beacon_data gui₂ producer bt bd hid ts).kafkaError
      ∧ (process_beacon_data gui₁ producer bt bd hid ts).message =
        (process_beacon_data gui₂ producer bt bd hid ts).message)
    ∧ (∀ (gui : Option GuiCallback) (p₁ p₂ : Option ProducerSend)
       (bt : String) (bd : Dict) (hid ts : String),
      (process_beacon_data gui p₁ bt bd hid ts).guiCalled =
        (process_beacon_data gui p₂ bt bd hid ts).guiCalled
      ∧ (process_beacon_data gui p₁ bt bd hid ts).guiError =
        (process_beacon_data gui p₂ bt bd hid ts).guiError
      ∧ (process_beacon_data gui p₁ bt bd hid ts).message =
        (process_beacon_data gui p₂ bt bd hid ts).message)
    ∧ (∀ cb : GuiCallback, (∀ t d, ∃ e, cb t d = Except.error e) →
       ∀ send : ProducerSend, (∀ m, send m = Except.ok ()) →
       ∀ (bt : String) (bd : Dict) (hid ts : String),
         (process_beacon_data (some cb) (some send) bt bd hid ts).kafkaSent = true
         ∧ (process_beacon_data (some cb) (some send) bt bd hid ts).guiCalled = true
         ∧ (process_beacon_data (some cb) (some send) bt bd hid ts).message
             = buildMessage bt hid ts bd) := by
  refine ⟨fun gui₁ gui₂ producer bt bd hid ts => ⟨rfl, rfl, rfl⟩,
          fun gui p₁ p₂ bt bd hid ts => ⟨rfl, rfl, rfl⟩, ?_⟩
  intro cb hcb send hsend bt bd hid ts
  refine ⟨?_, rfl, rfl⟩
  show (match send (buildMessage bt hid ts bd) with
    | Except.ok _ => true | Except.error _ => false) = true
  rw [hsend]

/-- C7 witness: a GUI callback that always raises does not prevent the
Kafka publish of an event, and the message is still returned. -/
theorem sink_failure_isolation_witness :
    (process_beacon_data (some fun _ _ => Except.error "boom")
        (some fun _ => Except.ok ()) "iBeacon" [] "host-1" "ts0").kafkaSent = true
    ∧ (process_beacon_data (some fun _ _ => Except.error "boom")
        (some fun _ => Except.ok ()) "iBeacon" [] "host-1" "ts0").guiCalled = true
    ∧ (process_beacon_data (some fun _ _ => Except.error "boom")
        (some fun _ => Except.ok ()) "iBeacon" [] "host-1" "ts0").message
        = buildMessage "iBeacon" "host-1" "ts0" [] :=
  sink_failure_isolation.2.2 (fun _ _ => Except.error "boom") (fun _ _ => ⟨"boom", rfl⟩)
    (fun _ => Except.ok ()) (fun _ => rfl) "iBeacon" [] "host-1" "ts0"

/-- Helper: `messagesOf` distributes over append. -/
theorem messagesOf_append (a b : List EntryOutcome) :
    messagesOf (a ++ b) = messagesOf a ++ messagesOf b := by
  induction a with
  | nil => rfl
  | cons x rest ih => cases x <;> simp [messagesOf, ih]

/-- Helper: `guiLogOf` distributes over append. -/
theorem guiLogOf_append (a b : List EntryOutcome) :
    guiLogOf (a ++ b) = guiLogOf a ++ guiLogOf b := by
  induction a with
  | nil => rfl
  | cons x rest ih => cases x <;> simp [guiLogOf, ih]

/-- Helper: one entry's message and GUI delivery do not depend on the
producer. -/
theorem entry_producer_swap (gui : Option GuiCallback) (p₁ p₂ : Option ProducerSend)
    (hid ts : String) (dev : Device) (ent : Nat × List Nat) :
    messagesOf [processEntry gui p₁ hid ts dev ent] =
      messagesOf [processEntry gui p₂ hid ts dev ent]
    ∧ guiLogOf [processEntry gui p₁ hid ts dev ent] =
      guiLogOf [processEntry gui p₂ hid ts dev ent] := by
  unfold processEntry
  cases decodeEntry ent.1 ent.2 <;> exact ⟨rfl, rfl⟩

/-- Helper: a device's entry list yields the same messages and GUI log for
any producer. -/
theorem entries_producer_swap (gui : Option GuiCallback) (p₁ p₂ : Option ProducerSend)
    (hid ts : String) (dev : Device) (entries : List (Nat × List Nat)) :
    messagesOf (processEntries gui p₁ hid ts dev entries) =
      messagesOf (processEntries gui p₂ hid ts dev entries)
    ∧ guiLogOf (processEntries gui p₁ hid ts dev entries) =
      guiLogOf (processEntries gui p₂ hid ts dev entries) := by
  induction entries with
  | nil => exact ⟨rfl, rfl⟩
  | cons e rest ih =>
    have hsplit : ∀ p : Option ProducerSend, processEntries gui p hid ts dev (e :: rest)
        = [processEntry gui p hid ts dev e] ++ processEntries gui p hid ts dev rest :=
      fun p => rfl
    have h := entry_producer_swap gui p₁ p₂ hid ts dev e
    constructor
    · rw [hsplit p₁, hsplit p₂, messagesOf_append, messagesOf_append, h.1, ih.1]
    · rw [hsplit p₁, hsplit p₂, guiLogOf_append, guiLogOf_append, h.2, ih.2]

/-- Helper: a whole batch yields the same messages and GUI log for any
producer. -/
theorem batch_producer_swap (gui : Option GuiCallback) (p₁ p₂ : Option ProducerSend)
    (hid ts : String) (devices : List Device) :
    messagesOf (processBatch gui p₁ hid ts devices) =
      messagesOf (processBatch gui p₂ hid ts devices)
    ∧ guiLogOf (processBatch gui p₁ hid ts devices) =
      guiLogOf (processBatch gui p₂ hid ts devices) := by
  induction devices with
  | nil => exact ⟨rfl, rfl⟩
  | cons dev rest ih =>
    have hsplit : ∀ p : Option ProducerSend, processBatch gui p hid ts (dev :: rest)
        = processDevice gui p hid ts dev ++ processBatch gui p hid ts rest :=
      fun p => rfl
    have h := entries_producer_swap gui p₁ p₂ hid ts dev dev.manufacturer_data
    constructor
    · rw [hsplit p₁, hsplit p₂, messagesOf_append, messagesOf_append]
      simp only [processDevice]
      rw [h.1, ih.1]
    · rw [hsplit p₁, hsplit p₂, guiLogOf_append, guiLogOf_append]
      simp only [processDevice]
      rw [h.2, ih.2]

/-- C9: with no producer (its creation failed at loop start), the publish
step is skipped without raising (`kafkaSent = false`, no error recorded),
the GUI callback is still invoked and the message still built and
returned; over a whole run of the loop, the outbound messages, the GUI
deliveries and the final state are identical to a run with any working or
failing producer. -/
theorem producer_absent :
    (∀ (gui : Option GuiCallback) (bt : String) (bd : Dict) (hid ts : String),
      (process_beacon_data gui none bt bd hid ts).kafkaSent = false
      ∧ (process_beacon_data gui none bt bd hid ts).kafkaError = none
      ∧ (process_beacon_data gui none bt bd hid ts).guiCalled = gui.isSome
      ∧ (process_beacon_data gui none bt bd hid ts).message = buildMessage bt hid ts bd)
    ∧ (∀ (gui : Option GuiCallback) (send : ProducerSend) (hid ts : String) (cycles : List Cycle),
      messagesOf (scanRun gui none hid ts cycles).1 =
        messagesOf (scanRun gui (some send) hid ts cycles).1
      ∧ guiLogOf (scanRun gui none hid ts cycles).1 =
        guiLogOf (scanRun gui (some send) hid ts cycles).1
      ∧ (scanRun gui none hid ts cycles).2 = (scanRun gui (some send) hid ts cycles).2) := by
  constructor
  · intro gui bt bd hid ts
    exact ⟨rfl, rfl, rfl, rfl⟩
  · intro gui send hid ts cycles
    induction cycles with
    | nil => exact ⟨rfl, rfl, rfl⟩
    | cons c rest ih =>
      by_cases h1 : c.stopBeforeDiscovery
      · simp [scanRun, h1]
      · by_cases h2 : c.stopDuringDiscovery
        · simp [scanRun, h1, h2]
        · have e : ∀ p : Option ProducerSend, scanRun gui p hid ts (c :: rest)
              = (processBatch gui p hid ts c.batch ++ (scanRun gui p hid ts rest).1,
                 (scanRun gui p hid ts rest).2) := by
            intro p
            simp [scanRun, h1, h2]
          have hb := batch_producer_swap gui none (some send) hid ts c.batch
          refine ⟨?_, ?_, ?_⟩
          · rw [e none, e (some send)]
            simp only
            rw [messagesOf_append, messagesOf_append, hb.1, ih.1]
          · rw [e none, e (some send)]
            simp only
            rw [guiLogOf_append, guiLogOf_append, hb.2, ih.2.1]
          · rw [e none, e (some send)]
            exact ih.2.2

/-- C8: an entry whose decode raises a caught exception contributes
exactly one decode-failure record; every other entry of the same device
and every other device of the batch is processed exactly as it would be
on its own, and batch processing always yields a full outcome list (a
single bad entry never aborts the cycle). -/
theorem decode_error_isolation :
    ∀ (gui : Option GuiCallback) (producer : Option ProducerSend) (hid ts : String)
      (devs₁ devs₂ : List Device) (dev : Device)
      (pre post : List (Nat × List Nat)) (cc : Nat) (d : List Nat) (e : DecodeError),
      dev.manufacturer_data = pre ++ (cc, d) :: post →
      decodeEntry cc d = DecodeResult.err e →
      processBatch gui producer hid ts (devs₁ ++ dev :: devs₂) =
        processBatch gui producer hid ts devs₁
          ++ (processEntries gui producer hid ts dev pre
              ++ EntryOutcome.decodeFailed e :: processEntries gui producer hid ts dev post)
          ++ processBatch gui producer hid ts devs₂ := by
  intro gui producer hid ts devs₁ devs₂ dev pre post cc d e hmd hdec
  simp [processBatch, processDevice, processEntries, List.map_append, List.flatten_append,
    hmd, List.append_assoc]
  simp [processEntry, hdec]

/-- C8 witness: a device whose second entry has URL-scheme index 4 (a
caught `IndexError`) still gets its first entry decoded and delivered. -/
theorem decode_error_isolation_witness :
    processBatch none none "host-1" "ts0" ([] ++ sampleDevice2 :: []) =
      processBatch none none "host-1" "ts0" []
        ++ (processEntries none none "host-1" "ts0" sampleDevice2
              [(0x004C, buildIBeaconPayload ibeaconSampleU 1 2 0xC8)]
            ++ EntryOutcome.decodeFailed DecodeError.indexError ::
              processEntries none none "host-1" "ts0" sampleDevice2 [])
        ++ processBatch none none "host-1" "ts0" [] :=
  decode_error_isolation none none "host-1" "ts0" [] [] sampleDevice2
    [(0x004C, buildIBeaconPayload ibeaconSampleU 1 2 0xC8)] [] 0x00AA
    (0xAA :: 0xFE :: 0x10 :: 0x04 :: List.replicate 16 0x61) DecodeError.indexError rfl rfl

/-- C10: the beacon_data dict of every decoder family carries the keys
rssi, address and name with the device's values (name falling back to
"Unknown"), so the defaults 0 and "unknown" of `message` are never used,
and `message.update(beacon_data)` overwrites rssi and address with the
identical values already present, leaving every common field of the
outbound message unchanged. -/
theorem beacon_common_fields :
    ∀ (dev : Device) (r : BeaconRecord) (bt hid ts : String),
      dlookup (beacon_data_of dev r) "rssi" = some (Val.vInt dev.rssi)
      ∧ dlookup (beacon_data_of dev r) "address" = some (Val.vStr dev.address)
      ∧ dlookup (beacon_data_of dev r) "name" = some (Val.vStr (dev.name.getD "Unknown"))
      ∧ dget (beacon_data_of dev r) "rssi" (Val.vInt 0) = Val.vInt dev.rssi
      ∧ dget (beacon_data_of dev r) "address" (Val.vStr "unknown") = Val.vStr dev.address
      ∧ dlookup (buildMessage bt hid ts (beacon_data_of dev r)) "type" = some (Val.vStr bt)
      ∧ dlookup (buildMessage bt hid ts (beacon_data_of dev r)) "host_id" = some (Val.vStr hid)
      ∧ dlookup (buildMessage bt hid ts (beacon_data_of dev r)) "timestamp" = some (Val.vStr ts)
      ∧ dlookup (buildMessage bt hid ts (beacon_data_of dev r)) "rssi" =
          dlookup (messageBase bt hid ts (beacon_data_of dev r)) "rssi"
      ∧ dlookup (buildMessage bt hid ts (beacon_data_of dev r)) "address" =
          dlookup (messageBase bt hid ts (beacon_data_of dev r)) "address"
      ∧ dlookup (buildMessage bt hid ts (beacon_data_of dev r)) "rssi" = some (Val.vInt dev.rssi)
      ∧ dlookup (buildMessage bt hid ts (beacon_data_of dev r)) "address" =
          some (Val.vStr dev.address) := by
  intro dev r bt hid ts
  cases r <;> exact ⟨rfl, rfl, rfl, rfl, rfl, rfl, rfl, rfl, rfl, rfl, rfl, rfl⟩

end BLEBeacon
